import Mathlib

/-
  Verification of the risk-management business rules of
  `src/Sample_Data_Files/sample_legacy_trading.cpp` against the
  natural-language specification.

  Shallow embedding conventions:
  * C++ `double` values are modelled as exact rationals (`ℚ`); where the
    source divides and the divisor may be zero, the IEEE-754 outcome
    (±infinity / NaN) is modelled explicitly by the extended type `XQ`,
    so that the embedded comparisons behave exactly as the `double`
    comparisons in the source do.
  * `std::map<int, T>` is modelled as an association list together with
    the `operator[]` semantics of `std::map`: reading a missing key
    inserts it with the default value (`mapIndex`), and the container
    contents are observable, so that default-insertion is visible.
  * Each `std::cout` diagnostic becomes a `(Severity, String)` message
    accumulated in the returned `Decision`; a `return false` in the
    source becomes `approved := false`.
-/

/-! ## Data model (structs of the source) -/

structure TraderProfile where
  trader_id : Int
  trader_name : String
  experience_years : Int
  risk_level : String
  account_balance : ℚ
  available_margin : ℚ
  trader_type : String
  is_accredited : Bool
  jurisdiction : String
deriving DecidableEq

structure TradeOrder where
  order_id : Int
  symbol : String
  order_type : String
  quantity : ℚ
  price : ℚ
  time_in_force : String
  is_margin_trade : Bool
  sector : String
  volatility_score : ℚ
deriving DecidableEq

structure PortfolioPosition where
  symbol : String
  current_value : ℚ
  unrealized_pnl : ℚ
  sector_exposure : ℚ
  risk_category : String
deriving DecidableEq

/-! ## Business-rule constants of the source -/

def MAX_POSITION_SIZE : ℚ := 10000000
def MAX_DAILY_LOSS : ℚ := 500000
def MIN_ACCOUNT_BALANCE : ℚ := 50000
/-- `MAX_LEVERAGE_RATIO` in the source. -/
def MAX_LEVERAGE : ℚ := 10
def HIGH_RISK_THRESHOLD : ℚ := 3/4
def MAX_TRADES_PER_DAY : Int := 100
def MARGIN_CALL_THRESHOLD : ℚ := 1/4
def FORCED_LIQUIDATION : ℚ := 1/10
def MIN_TRADING_EXPERIENCE : Int := 2
def MAX_ORDER_SIZE : ℚ := 1000000
/-- `int` in the source; it is compared against a `double` balance. -/
def PATTERN_DAY_TRADER_LIMIT : ℚ := 25000

/-! ## Decisions and diagnostics -/

inductive Severity where
  | info
  | warning
  | violation
  | rejected
deriving DecidableEq

/-- Outcome of a rule group: `approved` mirrors the `bool` the source
returns, `messages` the ordered `std::cout` diagnostics, each tagged with
the severity word the source prints. -/
structure Decision where
  approved : Bool
  messages : List (Severity × String)
deriving DecidableEq

/-! ## `std::map<int, T>` as an association list -/

/-- `std::map::find`-style lookup: the stored value, if the key is present. -/
def mapFind {α : Type} : List (Int × α) → Int → Option α
  | [], _ => none
  | p :: rest, k => if p.1 = k then some p.2 else mapFind rest k

/-- `std::map::operator[]`: returns the value stored at `k` and the
possibly-grown map — a missing key is default-inserted, as `operator[]`
does in C++. -/
def mapIndex {α : Type} (m : List (Int × α)) (k : Int) (d : α) :
    α × List (Int × α) :=
  match mapFind m k with
  | some v => (v, m)
  | none => (d, m ++ [(k, d)])

/-- Overwrite the value stored at `k` (insert at the end if absent). -/
def mapSet {α : Type} : List (Int × α) → Int → α → List (Int × α)
  | [], k, v => [(k, v)]
  | p :: rest, k, v => if p.1 = k then (k, v) :: rest else p :: mapSet rest k v

/-- The private per-trader state of `TradingRiskManager`. -/
structure Counters where
  daily_trade_counts : List (Int × Int)
  daily_losses : List (Int × ℚ)
deriving DecidableEq

/-- The trades-today count recorded for a trader (0 when absent). -/
def lookupCount (c : Counters) (k : Int) : Int :=
  (mapFind c.daily_trade_counts k).getD 0

/-- The cumulative loss recorded for a trader (0 when absent). -/
def lookupLoss (c : Counters) (k : Int) : ℚ :=
  (mapFind c.daily_losses k).getD 0

/-! ## `checkDailyLossLimits` (spec: `record_trade_loss`, §4.5) -/

/-- Embedding of `TradingRiskManager::checkDailyLossLimits`:
`daily_losses[trader_id] += trade_loss`, then reject above
`MAX_DAILY_LOSS`, else warn above 75 % of it. -/
def checkDailyLossLimits (trader_id : Int) (trade_loss : ℚ) (c : Counters) :
    Decision × Counters :=
  let r := mapIndex c.daily_losses trader_id 0
  let newLoss := r.1 + trade_loss
  let c1 : Counters := { c with daily_losses := mapSet r.2 trader_id newLoss }
  if MAX_DAILY_LOSS < newLoss then
    (⟨false, [(Severity.rejected, "Daily loss limit exceeded")]⟩, c1)
  else if MAX_DAILY_LOSS * (3/4) < newLoss then
    (⟨true, [(Severity.warning, "Approaching daily loss limit")]⟩, c1)
  else
    (⟨true, []⟩, c1)

/-! ### Association-list lemmas -/

theorem mapFind_mapSet_self {α : Type} (m : List (Int × α)) (k : Int) (v : α) :
    mapFind (mapSet m k v) k = some v := by
  induction m with
  | nil => simp [mapSet, mapFind]
  | cons p rest ih =>
    by_cases h : p.1 = k
    · simp [mapSet, mapFind, h]
    · simp [mapSet, mapFind, h, ih]

theorem mapIndex_fst {α : Type} (m : List (Int × α)) (k : Int) (d : α) :
    (mapIndex m k d).1 = (mapFind m k).getD d := by
  cases h : mapFind m k <;> simp [mapIndex, h]

theorem mapFind_append_single {α : Type} (m : List (Int × α)) (k : Int) (d : α)
    (h : mapFind m k = none) : mapFind (m ++ [(k, d)]) k = some d := by
  induction m with
  | nil => simp [mapFind]
  | cons p rest ih =>
    by_cases hp : p.1 = k
    · simp [mapFind, hp] at h
    · simp [mapFind, hp] at h ⊢
      exact ih h

theorem mapIndex_find {α : Type} (m : List (Int × α)) (k : Int) (d : α) :
    mapFind (mapIndex m k d).2 k = some ((mapFind m k).getD d) := by
  cases h : mapFind m k with
  | none => simp [mapIndex, h, mapFind_append_single m k d h]
  | some v => simp [mapIndex, h]

/-- After `checkDailyLossLimits`, the stored cumulative loss is the old
value plus the recorded loss — in every branch, rejection included. -/
theorem checkDailyLossLimits_updates (id : Int) (loss : ℚ) (c : Counters) :
    lookupLoss (checkDailyLossLimits id loss c).2 id = lookupLoss c id + loss := by
  simp only [checkDailyLossLimits, lookupLoss]
  split_ifs <;>
    simp [mapFind_mapSet_self, mapIndex_fst]

/-- `checkDailyLossLimits` rejects exactly when the updated cumulative
loss exceeds `MAX_DAILY_LOSS`. -/
theorem checkDailyLossLimits_reject_iff (id : Int) (loss : ℚ) (c : Counters) :
    (checkDailyLossLimits id loss c).1.approved = false ↔
      MAX_DAILY_LOSS < lookupLoss c id + loss := by
  have hfst : (mapIndex c.daily_losses id 0).1 = lookupLoss c id :=
    mapIndex_fst c.daily_losses id 0
  simp only [checkDailyLossLimits]
  rw [hfst]
  split_ifs with h1 h2 <;> simp [h1]

/-- C2: `record_trade_loss` first adds the loss to the cumulative-loss
counter and keeps the updated value even when it rejects: whenever the
new cumulative exceeds 500,000, the decision is REJECTED and the stored
cumulative still includes the loss (no rollback on rejection). -/
theorem C2_loss_recorded_even_on_reject (id : Int) (loss : ℚ) (c : Counters)
    (h : MAX_DAILY_LOSS < lookupLoss c id + loss) :
    (checkDailyLossLimits id loss c).1.approved = false ∧
      lookupLoss (checkDailyLossLimits id loss c).2 id = lookupLoss c id + loss := by
  refine ⟨?_, checkDailyLossLimits_updates id loss c⟩
  have hfst : (mapIndex c.daily_losses id 0).1 = lookupLoss c id :=
    mapIndex_fst c.daily_losses id 0
  simp only [checkDailyLossLimits]
  rw [hfst, if_pos h]

/-- Witness for C2 at a concrete input. -/
theorem C2_witness :
    MAX_DAILY_LOSS < lookupLoss ⟨[], []⟩ 7 + 600000 ∧
      ((checkDailyLossLimits 7 600000 ⟨[], []⟩).1.approved = false ∧
        lookupLoss (checkDailyLossLimits 7 600000 ⟨[], []⟩).2 7 =
          lookupLoss ⟨[], []⟩ 7 + 600000) := by
  refine ⟨?_, C2_loss_recorded_even_on_reject 7 600000 ⟨[], []⟩ ?_⟩ <;>
    simp [lookupLoss, mapFind, MAX_DAILY_LOSS] <;> norm_num

/-- C6: starting from an empty counters store, recording losses 100,000
then 450,000 for a trader yields cumulative 550,000 and a REJECTED second
call; recording them in the opposite order yields the same final
cumulative. -/
theorem C6_losses_accumulate (id : Int) :
    lookupLoss (checkDailyLossLimits id 450000
        (checkDailyLossLimits id 100000 ⟨[], []⟩).2).2 id = 550000 ∧
      (checkDailyLossLimits id 450000
        (checkDailyLossLimits id 100000 ⟨[], []⟩).2).1.approved = false ∧
      lookupLoss (checkDailyLossLimits id 100000
        (checkDailyLossLimits id 450000 ⟨[], []⟩).2).2 id = 550000 := by
  have h0 : lookupLoss (⟨[], []⟩ : Counters) id = 0 := by
    simp [lookupLoss, mapFind]
  have h1 : lookupLoss (checkDailyLossLimits id 100000 (⟨[], []⟩ : Counters)).2 id
      = 100000 := by
    rw [checkDailyLossLimits_updates, h0]; norm_num
  have h2 : lookupLoss (checkDailyLossLimits id 450000 (⟨[], []⟩ : Counters)).2 id
      = 450000 := by
    rw [checkDailyLossLimits_updates, h0]; norm_num
  refine ⟨?_, ?_, ?_⟩
  · rw [checkDailyLossLimits_updates, h1]; norm_num
  · rw [checkDailyLossLimits_reject_iff, h1, MAX_DAILY_LOSS]; norm_num
  · rw [checkDailyLossLimits_updates, h2]; norm_num

/-- C10: in any single `record_trade_loss` call, the approaching-limit
warning is only emitted when the call does not reject: a decision
carrying the warning message is APPROVED. -/
theorem C10_warning_excludes_reject (id : Int) (loss : ℚ) (c : Counters)
    (h : (Severity.warning, "Approaching daily loss limit") ∈
      (checkDailyLossLimits id loss c).1.messages) :
    (checkDailyLossLimits id loss c).1.approved = true := by
  simp only [checkDailyLossLimits] at h ⊢
  split_ifs at h ⊢ <;> simp_all

/-- Witness for C10 at a concrete input. -/
theorem C10_witness :
    (Severity.warning, "Approaching daily loss limit") ∈
        (checkDailyLossLimits 7 400000 ⟨[], []⟩).1.messages ∧
      (checkDailyLossLimits 7 400000 ⟨[], []⟩).1.approved = true := by
  have hm : (Severity.warning, "Approaching daily loss limit") ∈
      (checkDailyLossLimits 7 400000 (⟨[], []⟩ : Counters)).1.messages := by
    simp [checkDailyLossLimits, mapIndex, mapFind, MAX_DAILY_LOSS]
    norm_num
  exact ⟨hm, C10_warning_excludes_reject 7 400000 ⟨[], []⟩ hm⟩

/-! ## `validateTraderEligibility` (spec: `evaluate_eligibility`, §4.1) -/

/-- Embedding of `TradingRiskManager::validateTraderEligibility`:
experience, balance, jurisdiction and accreditation rejections in order,
then the pattern-day-trader warning branch, then approval. -/
def validateTraderEligibility (trader : TraderProfile) : Decision :=
  if trader.experience_years < MIN_TRADING_EXPERIENCE then
    ⟨false, [(Severity.rejected, "Trader lacks minimum experience")]⟩
  else if trader.account_balance < MIN_ACCOUNT_BALANCE then
    ⟨false, [(Severity.rejected, "Insufficient account balance")]⟩
  else if trader.jurisdiction = "RESTRICTED" ∨ trader.jurisdiction = "SANCTIONED" then
    ⟨false, [(Severity.rejected, "Trader from restricted jurisdiction")]⟩
  else if trader.risk_level = "HIGH" ∧ trader.is_accredited = false then
    ⟨false, [(Severity.rejected, "High-risk trading requires accreditation")]⟩
  else if trader.trader_type = "RETAIL" ∧
      trader.account_balance < PATTERN_DAY_TRADER_LIMIT then
    ⟨true, [(Severity.warning, "Pattern Day Trader restrictions apply")]⟩
  else
    ⟨true, []⟩

/-- C9: the pattern-day-trader warning is unreachable — it would require
`account_balance < 25000`, but every such profile is already rejected by
the earlier `account_balance < 50000` check, so no eligibility decision
ever carries the warning. -/
theorem C9_pdt_warning_unreachable (trader : TraderProfile) :
    (Severity.warning, "Pattern Day Trader restrictions apply") ∉
      (validateTraderEligibility trader).messages := by
  simp only [validateTraderEligibility]
  split_ifs with h1 h2 h3 h4 h5
  · simp
  · simp
  · simp
  · simp
  · exfalso
    rw [MIN_ACCOUNT_BALANCE] at h2
    rw [PATTERN_DAY_TRADER_LIMIT] at h5
    have := h5.2
    push_neg at h2
    linarith
  · simp

/-! ## `validateTradeOrder` (spec: `evaluate_order`, §4.2) -/

/-- Embedding of `TradingRiskManager::validateTradeOrder`: the six
rejection checks of the source in their order, the non-blocking sector
INFO message, and the read of `daily_trade_counts[trader.trader_id]`
through `operator[]` (which default-inserts a missing key). -/
def validateTradeOrder (order : TradeOrder) (trader : TraderProfile)
    (c : Counters) : Decision × Counters :=
  let order_value := order.quantity * order.price
  if MAX_ORDER_SIZE < order_value then
    (⟨false, [(Severity.rejected, "Order size exceeds maximum allowed")]⟩, c)
  else if (8/10 : ℚ) < order.volatility_score ∧ trader.risk_level = "LOW" then
    (⟨false, [(Severity.rejected,
      "High volatility instrument not allowed for low-risk trader")]⟩, c)
  else if order.order_type = "SHORT" ∧ trader.trader_type = "RETAIL" ∧
      (100000 : ℚ) < order_value then
    (⟨false, [(Severity.rejected,
      "Large short positions restricted for retail traders")]⟩, c)
  else if order.is_margin_trade = true ∧
      trader.available_margin < order_value * (1/2) then
    (⟨false, [(Severity.rejected, "Insufficient margin for trade")]⟩, c)
  else
    let r := mapIndex c.daily_trade_counts trader.trader_id 0
    let c1 : Counters := { c with daily_trade_counts := r.2 }
    if MAX_TRADES_PER_DAY ≤ r.1 then
      (⟨false, [(Severity.rejected, "Daily trade limit exceeded")]⟩, c1)
    else
      let infoMsgs : List (Severity × String) :=
        if order.sector ≠ "DIVERSIFIED" then
          [(Severity.info, "Checking sector concentration limits")]
        else []
      if order.time_in_force = "EXTENDED_HOURS" ∧ trader.experience_years < 5 then
        (⟨false, infoMsgs ++
          [(Severity.rejected, "Insufficient experience for after-hours trading")]⟩, c1)
      else
        (⟨true, infoMsgs⟩, c1)

/-! ### Spec-side description of §4.2's rejection order -/

/-- Written from the spec's words (§4.2): the rejection checks of
`evaluate_order`, as (holds?, rejection message) pairs, in the fixed
order the spec lists them. The counters are only read (no insertion). -/
def orderRejectChecks (order : TradeOrder) (trader : TraderProfile)
    (c : Counters) : List (Bool × String) :=
  let order_value := order.quantity * order.price
  [ (decide (MAX_ORDER_SIZE < order_value),
      "Order size exceeds maximum allowed"),
    (decide ((8/10 : ℚ) < order.volatility_score ∧ trader.risk_level = "LOW"),
      "High volatility instrument not allowed for low-risk trader"),
    (decide (order.order_type = "SHORT" ∧ trader.trader_type = "RETAIL" ∧
        (100000 : ℚ) < order_value),
      "Large short positions restricted for retail traders"),
    (decide (order.is_margin_trade = true ∧
        trader.available_margin < order_value * (1/2)),
      "Insufficient margin for trade"),
    (decide (MAX_TRADES_PER_DAY ≤ lookupCount c trader.trader_id),
      "Daily trade limit exceeded"),
    (decide (order.time_in_force = "EXTENDED_HOURS" ∧
        trader.experience_years < 5),
      "Insufficient experience for after-hours trading") ]

/-- Written from the spec's words: the first check in the list that
rejects, if any. -/
def firstReject : List (Bool × String) → Option String
  | [] => none
  | ch :: rest => if ch.1 then some ch.2 else firstReject rest

/-- Whether a diagnostic message carries REJECTED severity. -/
def isRejectedMsg : Severity × String → Bool
  | (Severity.rejected, _) => true
  | _ => false

/-- C3: `evaluate_order` evaluates its rejection checks in the §4.2 order
and stops at the first rejecting check: its REJECTED-severity messages
are exactly the message of the first check of `orderRejectChecks` that
holds (none when all pass), and it approves exactly when no check holds. -/
theorem C3_first_reject_order (order : TradeOrder) (trader : TraderProfile)
    (c : Counters) :
    ((validateTradeOrder order trader c).1.messages.filter isRejectedMsg).map
        Prod.snd =
      (firstReject (orderRejectChecks order trader c)).toList ∧
      (validateTradeOrder order trader c).1.approved =
        (firstReject (orderRejectChecks order trader c)).isNone := by
  have hcnt : (mapIndex c.daily_trade_counts trader.trader_id 0).1 =
      (mapFind c.daily_trade_counts trader.trader_id).getD 0 :=
    mapIndex_fst c.daily_trade_counts trader.trader_id 0
  by_cases h1 : MAX_ORDER_SIZE < order.quantity * order.price
  · simp [validateTradeOrder, orderRejectChecks, firstReject, isRejectedMsg, h1]
  · by_cases h2 : (8/10 : ℚ) < order.volatility_score ∧ trader.risk_level = "LOW"
    · simp [validateTradeOrder, orderRejectChecks, firstReject, isRejectedMsg,
        h1, h2]
    · by_cases h3 : order.order_type = "SHORT" ∧ trader.trader_type = "RETAIL" ∧
          (100000 : ℚ) < order.quantity * order.price
      · simp [validateTradeOrder, orderRejectChecks, firstReject, isRejectedMsg,
          h1, h2, h3]
      · by_cases h4 : order.is_margin_trade = true ∧
            trader.available_margin < order.quantity * order.price * 2⁻¹
        · simp [validateTradeOrder, orderRejectChecks, firstReject, isRejectedMsg,
            h1, h2, h3, h4]
        · by_cases h5 : MAX_TRADES_PER_DAY ≤
              (mapFind c.daily_trade_counts trader.trader_id).getD 0
          · simp [validateTradeOrder, orderRejectChecks, firstReject,
              isRejectedMsg, h1, h2, h3, h4, hcnt, lookupCount, h5]
          · by_cases h6 : order.time_in_force = "EXTENDED_HOURS" ∧
                trader.experience_years < 5
            · by_cases hs : order.sector = "DIVERSIFIED" <;>
                simp [validateTradeOrder, orderRejectChecks, firstReject,
                  isRejectedMsg, h1, h2, h3, h4, hcnt, lookupCount, h5, h6, hs]
            · by_cases hs : order.sector = "DIVERSIFIED" <;>
                simp [validateTradeOrder, orderRejectChecks, firstReject,
                  isRejectedMsg, h1, h2, h3, h4, hcnt, lookupCount, h5, h6, hs]

/-- C5: any order whose value `quantity * price` exceeds 1,000,000 is
rejected by `evaluate_order`, regardless of every other order, trader or
counters field. -/
theorem C5_large_order_rejected (order : TradeOrder) (trader : TraderProfile)
    (c : Counters) (h : (1000000 : ℚ) < order.quantity * order.price) :
    (validateTradeOrder order trader c).1.approved = false := by
  have h' : MAX_ORDER_SIZE < order.quantity * order.price := by
    rw [MAX_ORDER_SIZE]; exact h
  simp [validateTradeOrder, h']

/-- The sample trader of the source's `main`. -/
def sampleTrader : TraderProfile :=
  ⟨123, "John Trader", 5, "MEDIUM", 250000, 100000, "RETAIL", true, "US"⟩

/-- The sample order of the source's `main`. -/
def sampleOrder : TradeOrder :=
  ⟨1001, "AAPL", "BUY", 1000, 150, "DAY", false, "TECHNOLOGY", 3/10⟩

/-- Witness for C5 at a concrete input (order value 1,500,000). -/
theorem C5_witness :
    (1000000 : ℚ) < (10000 : ℚ) * 150 ∧
      (validateTradeOrder { sampleOrder with quantity := 10000 } sampleTrader
        ⟨[], []⟩).1.approved = false := by
  constructor
  · norm_num
  · exact C5_large_order_rejected { sampleOrder with quantity := 10000 }
      sampleTrader ⟨[], []⟩ (by norm_num [sampleOrder])

/-! ### C4: does `evaluate_order` mutate the counters store? -/

theorem mapFind_append_ne {α : Type} (m : List (Int × α)) (k j : Int) (d : α)
    (hj : j ≠ k) : mapFind (m ++ [(k, d)]) j = mapFind m j := by
  have hkj : ¬(k = j) := fun h => hj h.symm
  induction m with
  | nil => simp [mapFind, hkj]
  | cons p rest ih =>
    by_cases hp : p.1 = j
    · simp [mapFind, hp]
    · simp [mapFind, hp, ih]

/-- Reading through `operator[]` never changes the value associated to
any key, relative to the default used for the read. -/
theorem mapIndex_getD {α : Type} (m : List (Int × α)) (k : Int) (d : α)
    (j : Int) : (mapFind (mapIndex m k d).2 j).getD d = (mapFind m j).getD d := by
  cases h : mapFind m k with
  | some v => simp [mapIndex, h]
  | none =>
    by_cases hj : j = k
    · subst hj
      simp [mapIndex, h, mapFind_append_single m j d h]
    · simp [mapIndex, h, mapFind_append_ne m k j d hj]

/-- C4 (amended): `evaluate_order` changes no counter value — for every
trader id the trades-today count (with default 0) after the call equals
the one before, and the loss map is untouched; the only change it can
make to the store is materialising a zero-valued entry for the evaluated
trader via `std::map::operator[]`. -/
theorem C4_counter_values_unchanged (order : TradeOrder)
    (trader : TraderProfile) (c : Counters) (k : Int) :
    lookupCount (validateTradeOrder order trader c).2 k = lookupCount c k ∧
      (validateTradeOrder order trader c).2.daily_losses = c.daily_losses := by
  simp only [validateTradeOrder]
  split_ifs <;> simp [lookupCount, mapIndex_getD]

/-- C4 (counterexample to the claim as stated): on the source's own
sample inputs with an empty counters store, the store after
`evaluate_order` is not the store before it — `operator[]` has inserted
a zero entry for trader 123. -/
theorem C4_counterexample :
    ((validateTradeOrder sampleOrder sampleTrader ⟨[], []⟩).2 =
      (⟨[], []⟩ : Counters)) = False := by
  apply eq_false
  intro h
  have heval : (validateTradeOrder sampleOrder sampleTrader ⟨[], []⟩).2 =
      (⟨[(123, 0)], []⟩ : Counters) := by
    norm_num [validateTradeOrder, sampleOrder, sampleTrader, mapIndex, mapFind,
      MAX_ORDER_SIZE, MAX_TRADES_PER_DAY]
    rw [if_neg (show ¬("BUY" = "SHORT") by decide)]
  rw [heval] at h
  simp at h

/-! ## `validatePortfolioRisk` (spec: `evaluate_portfolio`, §4.3) -/

/-- The value of a C++ `double` division in the embedding: finite exact
quotients, and the IEEE-754 special values produced when the divisor is
zero. -/
inductive XQ where
  | nan
  | posInf
  | negInf
  | fin (q : ℚ)
deriving DecidableEq

/-- IEEE-754 division `a / b` for exact operands: the exact quotient when
`b ≠ 0`, and `±∞` / NaN by the sign of `a` when `b = 0`. -/
def fdiv (a b : ℚ) : XQ :=
  if b ≠ 0 then XQ.fin (a / b)
  else if 0 < a then XQ.posInf
  else if a < 0 then XQ.negInf
  else XQ.nan

/-- The C++ comparison `x > c` on the division result: NaN compares
false, `+∞` is greater than every finite bound. -/
def XQ.gtc : XQ → ℚ → Bool
  | XQ.fin q, c => decide (c < q)
  | XQ.posInf, _ => true
  | _, _ => false

/-- The C++ comparison `x < c` on the division result: NaN compares
false, `-∞` is less than every finite bound. -/
def XQ.ltc : XQ → ℚ → Bool
  | XQ.fin q, c => decide (q < c)
  | XQ.negInf, _ => true
  | _, _ => false

/-- `total_portfolio_value`: sum of the positions' current values. -/
def sumCurrentValue : List PortfolioPosition → ℚ
  | [] => 0
  | p :: rest => p.current_value + sumCurrentValue rest

/-- `total_unrealized_loss`: sum of `|pnl|` over negative-pnl positions. -/
def sumUnrealizedLoss : List PortfolioPosition → ℚ
  | [] => 0
  | p :: rest =>
    (if p.unrealized_pnl < 0 then |p.unrealized_pnl| else 0) +
      sumUnrealizedLoss rest

/-- `high_risk_exposure`: sum of current values of HIGH_RISK positions. -/
def sumHighRisk : List PortfolioPosition → ℚ
  | [] => 0
  | p :: rest =>
    (if p.risk_category = "HIGH_RISK" then p.current_value else 0) +
      sumHighRisk rest

/-- The per-position loop of the source: a position above the hard cap
prints a VIOLATION and returns `false` at once; otherwise a position
above 20 % of the portfolio adds a concentration WARNING and the loop
continues. -/
def positionLoop (total : ℚ) : List PortfolioPosition →
    List (Severity × String) × Bool
  | [] => ([], true)
  | p :: rest =>
    if MAX_POSITION_SIZE < p.current_value then
      ([(Severity.violation, "Position size exceeds maximum allowed")], false)
    else
      let warn : List (Severity × String) :=
        if total * (2/10) < p.current_value then
          [(Severity.warning, "Single position exceeds 20% of portfolio")]
        else []
      let r := positionLoop total rest
      (warn ++ r.1, r.2)

/-- The portfolio checks that precede the two ratio checks in the source:
unrealized-loss warning, per-position hard cap, concentration warning,
and the high-risk exposure limit, with the source's message order. -/
def portfolioPreamble (positions : List PortfolioPosition)
    (trader : TraderProfile) : Decision :=
  let total := sumCurrentValue positions
  let lossMsgs : List (Severity × String) :=
    if trader.account_balance * (2/10) < sumUnrealizedLoss positions then
      [(Severity.warning, "Portfolio losses exceed 20% of account balance")]
    else []
  let pl := positionLoop total positions
  if pl.2 = false then ⟨false, lossMsgs ++ pl.1⟩
  else if total * HIGH_RISK_THRESHOLD < sumHighRisk positions then
    ⟨false, lossMsgs ++ pl.1 ++
      [(Severity.violation, "High-risk exposure exceeds threshold")]⟩
  else ⟨true, lossMsgs ++ pl.1⟩

/-- `leverage_ratio` of the source:
`total_portfolio_value / trader.account_balance`. -/
def leverageOf (positions : List PortfolioPosition)
    (trader : TraderProfile) : XQ :=
  fdiv (sumCurrentValue positions) trader.account_balance

/-- `margin_equity_ratio` of the source:
`trader.account_balance / total_portfolio_value`. -/
def marginEquityOf (positions : List PortfolioPosition)
    (trader : TraderProfile) : XQ :=
  fdiv trader.account_balance (sumCurrentValue positions)

/-- Embedding of `TradingRiskManager::validatePortfolioRisk`: the
preamble checks, then the leverage rejection, the margin-call warning and
the forced-liquidation rejection, with the source's division semantics. -/
def validatePortfolioRisk (positions : List PortfolioPosition)
    (trader : TraderProfile) : Decision :=
  let pre := portfolioPreamble positions trader
  if pre.approved = false then pre
  else if (leverageOf positions trader).gtc MAX_LEVERAGE then
    ⟨false, pre.messages ++
      [(Severity.violation, "Leverage ratio exceeds maximum allowed")]⟩
  else
    let marginMsgs : List (Severity × String) :=
      if (marginEquityOf positions trader).ltc MARGIN_CALL_THRESHOLD then
        [(Severity.warning, "Account below margin maintenance requirement")]
      else []
    if (marginEquityOf positions trader).ltc FORCED_LIQUIDATION then
      ⟨false, pre.messages ++ marginMsgs ++
        [(Severity.rejected, "Account below liquidation threshold")]⟩
    else ⟨true, pre.messages ++ marginMsgs⟩

/-- C1: on a portfolio whose current values sum to 0 (and a trader with
a non-negative balance, per the data model), `evaluate_portfolio`
behaves exactly as if the leverage and margin-equity checks were skipped:
the decision equals the one produced by the remaining portfolio checks
(`portfolioPreamble` — unrealized-loss warning, per-position hard cap,
concentration warning, high-risk exposure), and no division fault
arises — the IEEE quotients 0/balance and balance/0 make both checks
pass. -/
theorem C1_zero_total_skips_div_checks (positions : List PortfolioPosition)
    (trader : TraderProfile) (h : sumCurrentValue positions = 0)
    (hb : 0 ≤ trader.account_balance) :
    validatePortfolioRisk positions trader = portfolioPreamble positions trader := by
  have hlev : (leverageOf positions trader).gtc MAX_LEVERAGE = false := by
    rw [leverageOf, h]
    rcases eq_or_lt_of_le hb with hb0 | hbpos
    · rw [← hb0]; norm_num [fdiv, XQ.gtc]
    · have hne : trader.account_balance ≠ 0 := ne_of_gt hbpos
      norm_num [fdiv, hne, XQ.gtc, MAX_LEVERAGE]
  have hmlt : ∀ q : ℚ, (marginEquityOf positions trader).ltc q = false := by
    intro q
    rw [marginEquityOf, h]
    rcases eq_or_lt_of_le hb with hb0 | hbpos
    · rw [← hb0]; norm_num [fdiv, XQ.ltc]
    · norm_num [fdiv, hbpos, XQ.ltc]
  rcases hp : portfolioPreamble positions trader with ⟨a, msgs⟩
  cases a
  · simp [validatePortfolioRisk, hp]
  · simp [validatePortfolioRisk, hp, hlev, hmlt]

/-- A two-position portfolio with current values summing to zero. -/
def zeroSumPositions : List PortfolioPosition :=
  [⟨"XYZ", 100, -50, 0, "HIGH_RISK"⟩, ⟨"ABC", -100, 10, 0, "LOW"⟩]

/-- Witness for C1 at a concrete input. -/
theorem C1_witness :
    sumCurrentValue zeroSumPositions = 0 ∧
      0 ≤ sampleTrader.account_balance ∧
      validatePortfolioRisk zeroSumPositions sampleTrader =
        portfolioPreamble zeroSumPositions sampleTrader := by
  refine ⟨?_, ?_, C1_zero_total_skips_div_checks zeroSumPositions sampleTrader
    ?_ ?_⟩ <;> norm_num [sumCurrentValue, zeroSumPositions, sampleTrader]

/-! ### C7: scale invariance of the ratio checks -/

/-- All position current values multiplied by `k`. -/
def scalePositions (k : ℚ) : List PortfolioPosition → List PortfolioPosition
  | [] => []
  | p :: rest =>
    { p with current_value := k * p.current_value } :: scalePositions k rest

/-- The trader's account balance multiplied by `k`. -/
def scaleTrader (k : ℚ) (t : TraderProfile) : TraderProfile :=
  { t with account_balance := k * t.account_balance }

theorem sumCurrentValue_scale (k : ℚ) (ps : List PortfolioPosition) :
    sumCurrentValue (scalePositions k ps) = k * sumCurrentValue ps := by
  induction ps with
  | nil => simp [scalePositions, sumCurrentValue]
  | cons p rest ih =>
    simp only [scalePositions, sumCurrentValue, ih]
    ring

theorem fdiv_scale (k a b : ℚ) (hk : 0 < k) :
    fdiv (k * a) (k * b) = fdiv a b := by
  by_cases hb : b = 0
  · subst hb
    rw [mul_zero]
    rcases lt_trichotomy a 0 with ha | ha | ha
    · have hka : k * a < 0 := mul_neg_of_pos_of_neg hk ha
      simp [fdiv, ha, hka, not_lt_of_lt ha, not_lt_of_lt hka]
    · subst ha
      simp [fdiv]
    · have hka : 0 < k * a := mul_pos hk ha
      simp [fdiv, ha, hka]
  · have hkb : k * b ≠ 0 := mul_ne_zero (ne_of_gt hk) hb
    simp [fdiv, hb, hkb, mul_div_mul_left a b (ne_of_gt hk)]

/-- C7: multiplying the account balance and every position current value
by the same positive constant leaves `leverage_ratio` and
`margin_equity_ratio` unchanged, so the leverage, margin-call and
forced-liquidation sub-checks of `evaluate_portfolio` produce the same
verdicts. -/
theorem C7_ratio_checks_scale_invariant (k : ℚ) (hk : 0 < k)
    (positions : List PortfolioPosition) (trader : TraderProfile) :
    leverageOf (scalePositions k positions) (scaleTrader k trader) =
        leverageOf positions trader ∧
      marginEquityOf (scalePositions k positions) (scaleTrader k trader) =
        marginEquityOf positions trader ∧
      (leverageOf (scalePositions k positions) (scaleTrader k trader)).gtc
          MAX_LEVERAGE = (leverageOf positions trader).gtc MAX_LEVERAGE ∧
      (marginEquityOf (scalePositions k positions) (scaleTrader k trader)).ltc
          MARGIN_CALL_THRESHOLD =
        (marginEquityOf positions trader).ltc MARGIN_CALL_THRESHOLD ∧
      (marginEquityOf (scalePositions k positions) (scaleTrader k trader)).ltc
          FORCED_LIQUIDATION =
        (marginEquityOf positions trader).ltc FORCED_LIQUIDATION := by
  have h1 : leverageOf (scalePositions k positions) (scaleTrader k trader) =
      leverageOf positions trader := by
    rw [leverageOf, leverageOf, sumCurrentValue_scale]
    show fdiv (k * sumCurrentValue positions) (scaleTrader k trader).account_balance = _
    rw [scaleTrader]
    exact fdiv_scale k _ _ hk
  have h2 : marginEquityOf (scalePositions k positions) (scaleTrader k trader) =
      marginEquityOf positions trader := by
    rw [marginEquityOf, marginEquityOf, sumCurrentValue_scale]
    show fdiv (scaleTrader k trader).account_balance (k * sumCurrentValue positions) = _
    rw [scaleTrader]
    exact fdiv_scale k _ _ hk
  exact ⟨h1, h2, by rw [h1], by rw [h2], by rw [h2]⟩

/-- Witness for C7 at a concrete input (k = 2). -/
theorem C7_witness :
    (0 : ℚ) < 2 ∧
      leverageOf (scalePositions 2 zeroSumPositions) (scaleTrader 2 sampleTrader) =
        leverageOf zeroSumPositions sampleTrader := by
  exact ⟨by norm_num,
    (C7_ratio_checks_scale_invariant 2 (by norm_num) zeroSumPositions
      sampleTrader).1⟩

/-! ## `calculateRiskScore` (spec: `risk_score`, §4.8) -/

/-- Embedding of the free function `calculateRiskScore`: the additive
risk accumulator of the source. -/
def calculateRiskScore (trader : TraderProfile) (order : TradeOrder) : ℚ :=
  let s1 : ℚ := if trader.experience_years < 3 then 3/10 else 0
  let s2 : ℚ := if trader.account_balance < 100000 then 2/10 else 0
  let order_value := order.quantity * order.price
  let s3 : ℚ := if trader.account_balance * (1/10) < order_value then 4/10 else 0
  let s4 : ℚ := order.volatility_score * (5/10)
  let s5 : ℚ := if order.sector = "BIOTECH" ∨ order.sector = "CRYPTO"
    then 3/10 else 0
  s1 + s2 + s3 + s4 + s5

/-- C8: `risk_score` is monotonically non-decreasing in the order's
volatility score, all other trader and order fields held fixed. -/
theorem C8_monotone_in_volatility (trader : TraderProfile)
    (order : TradeOrder) (v1 v2 : ℚ) (h : v1 ≤ v2) :
    calculateRiskScore trader { order with volatility_score := v1 } ≤
      calculateRiskScore trader { order with volatility_score := v2 } := by
  simp only [calculateRiskScore]
  have hv : v1 * (5/10) ≤ v2 * (5/10) := by linarith
  gcongr

/-- Witness for C8 at a concrete input. -/
theorem C8_witness :
    (0 : ℚ) ≤ 1 ∧
      calculateRiskScore sampleTrader { sampleOrder with volatility_score := 0 } ≤
        calculateRiskScore sampleTrader { sampleOrder with volatility_score := 1 } :=
  ⟨by norm_num,
    C8_monotone_in_volatility sampleTrader sampleOrder 0 1 (by norm_num)⟩
